import Mathlib

/-!
Shallow embedding of the stream-verification screenshot-debugger core:
the JSON parser (`JSONParser` in the source), the discrepancy classifier
(`DiscrepancyManager`) and the navigation/filter engine (`ScreenshotViewer`).
JavaScript objects with possibly-absent fields are embedded as structures of
`Option` fields; the loose `x || d` defaulting idiom is embedded by helpers
that reproduce JS truthiness (absent, `0`, `""` and `false` are falsy).
-/

/-- JS `x || d` for string-valued fields: `""` is falsy. -/
def jsOrStr (x : Option String) (d : String) : String :=
  match x with
  | none => d
  | some s => if s = "" then d else s

/-- JS `x || d` for number-valued fields: `0` is falsy. -/
def jsOrNat (x : Option Nat) (d : Nat) : Nat :=
  match x with
  | none => d
  | some n => if n = 0 then d else n

/-- JS `x || false` for boolean fields. -/
def jsOrBool (x : Option Bool) : Bool :=
  x.getD false

/-- JS `x || null` for string fields: `""` collapses to `null`. -/
def jsOrNull (x : Option String) : Option String :=
  match x with
  | none => none
  | some s => if s = "" then none else some s

/-- JS `x || y` where both sides are possibly-absent strings. -/
def jsOrOptStr (x y : Option String) : Option String :=
  match x with
  | none => y
  | some s => if s = "" then y else some s

/-! ## Wire format (`complete_analysis.json`), lower-snake-case fields -/

structure RawScreenshot where
  filename : Option String
  s3_key : Option String
  timestamp : Option String
  url : Option String
  cache_key : Option String
  deriving Repr, DecidableEq

structure RawMLGame where
  gameClass : Option String
  confidence : Option Int
  box : Option (List Int)
  deriving Repr, DecidableEq

structure RawMLInference where
  games : Option (List RawMLGame)
  number_of_games : Option Nat
  latency_ms : Option Nat
  is_uniform_frame : Option Bool
  error : Option String
  deriving Repr, DecidableEq

structure RawPPGame where
  game_id : Option String
  game_session_id : Option String
  deriving Repr, DecidableEq

structure RawPostProcessed where
  games : Option (List RawPPGame)
  game_count : Option Nat
  event_type : Option String
  applied_threshold : Option Bool
  sliding_window_state : Option (List String)
  error : Option String
  deriving Repr, DecidableEq

structure RawDBSession where
  game_session_id : Option String
  game_identifier : Option String
  game_name : Option String
  start_time : Option String
  end_time : Option String
  true_airtime : Option Nat
  matches_screenshot : Option Bool
  deriving Repr, DecidableEq

structure RawDBGameCount where
  timestamp : Option String
  game_session_id : Option String
  game_identifier : Option String
  deriving Repr, DecidableEq

/-- The `discrepancy_flags` object; an absent boolean field is identified with
`false`, which is how every use site coerces it. -/
structure DiscrepancyFlags where
  ml_vs_postprocessing : Bool
  postprocessing_vs_db : Bool
  missing_in_db : Bool
  extra_in_db : Bool
  deriving Repr, DecidableEq

def DiscrepancyFlags.noFlags : DiscrepancyFlags :=
  ⟨false, false, false, false⟩

structure RawResult where
  index : Option Nat
  screenshot : Option RawScreenshot
  ml_inference : Option RawMLInference
  post_processed : Option RawPostProcessed
  db_sessions : Option (List RawDBSession)
  db_game_counts : Option (List RawDBGameCount)
  discrepancy_flags : Option DiscrepancyFlags
  deriving Repr, DecidableEq

structure RawDoc where
  session_id : Option String
  platform : Option String
  channel : Option String
  date : Option String
  start_time : Option String
  end_time : Option String
  analyzed_at : Option String
  total : Option Nat
  results : Option (List RawResult)
  deriving Repr, DecidableEq

/-! ## Parsed in-memory model (camelCase, defaults applied) -/

structure Screenshot where
  filename : Option String
  s3Key : Option String
  timestamp : Option String
  url : Option String
  cacheKey : Option String
  deriving Repr, DecidableEq

structure MLGame where
  gameClass : Option String
  confidence : Option Int
  box : Option (List Int)
  deriving Repr, DecidableEq

structure MLInference where
  games : List MLGame
  numberOfGames : Nat
  latencyMs : Nat
  isUniformFrame : Bool
  error : Option String
  deriving Repr, DecidableEq

structure PPGame where
  gameId : Option String
  gameSessionId : Option String
  deriving Repr, DecidableEq

structure PostProcessed where
  games : List PPGame
  gameCount : Nat
  eventType : String
  appliedThreshold : Bool
  slidingWindowState : List String
  error : Option String
  deriving Repr, DecidableEq

structure DBSession where
  gameSessionId : Option String
  gameIdentifier : Option String
  gameName : Option String
  startTime : Option String
  endTime : Option String
  trueAirtime : Nat
  matchesScreenshot : Bool
  deriving Repr, DecidableEq

structure DBGameCount where
  timestamp : Option String
  gameSessionId : Option String
  gameIdentifier : Option String
  deriving Repr, DecidableEq

structure FrameResult where
  index : Option Nat
  screenshot : Option Screenshot
  mlInference : Option MLInference
  postProcessed : Option PostProcessed
  dbSessions : List DBSession
  dbGameCounts : List DBGameCount
  discrepancyFlags : DiscrepancyFlags
  hasDiscrepancy : Bool
  deriving Repr, DecidableEq

structure SessionMetadata where
  sessionId : String
  platform : String
  channel : String
  date : String
  startTime : Option String
  endTime : Option String
  analyzedAt : Option String
  total : Nat
  deriving Repr, DecidableEq

namespace JSONParser

/-- `JSONParser.parseScreenshot`. -/
def parseScreenshot (screenshot : Option RawScreenshot) : Option Screenshot :=
  match screenshot with
  | none => none
  | some s => some
      { filename := s.filename
        s3Key := s.s3_key
        timestamp := s.timestamp
        url := jsOrNull s.url
        cacheKey := jsOrNull s.cache_key }

/-- `JSONParser.parseMLInference`. -/
def parseMLInference (mlInference : Option RawMLInference) : Option MLInference :=
  match mlInference with
  | none => none
  | some m => some
      { games := (m.games.getD []).map fun g =>
          { gameClass := g.gameClass
            confidence := g.confidence
            box := g.box }
        numberOfGames := jsOrNat m.number_of_games 0
        latencyMs := jsOrNat m.latency_ms 0
        isUniformFrame := jsOrBool m.is_uniform_frame
        error := jsOrNull m.error }

/-- `JSONParser.parsePostProcessed`. -/
def parsePostProcessed (postProcessed : Option RawPostProcessed) : Option PostProcessed :=
  match postProcessed with
  | none => none
  | some p => some
      { games := (p.games.getD []).map fun g =>
          { gameId := g.game_id
            gameSessionId := g.game_session_id }
        gameCount := jsOrNat p.game_count 0
        eventType := jsOrStr p.event_type "UNKNOWN"
        appliedThreshold := jsOrBool p.applied_threshold
        slidingWindowState := p.sliding_window_state.getD []
        error := jsOrNull p.error }

/-- `JSONParser.parseDBSessions`; a missing or non-array field yields `[]`. -/
def parseDBSessions (dbSessions : Option (List RawDBSession)) : List DBSession :=
  (dbSessions.getD []).map fun s =>
    { gameSessionId := s.game_session_id
      gameIdentifier := s.game_identifier
      gameName := jsOrOptStr s.game_name s.game_identifier
      startTime := s.start_time
      endTime := s.end_time
      trueAirtime := jsOrNat s.true_airtime 0
      matchesScreenshot := s.matches_screenshot != some false }

/-- `JSONParser.parseDBGameCounts`. -/
def parseDBGameCounts (dbGameCounts : Option (List RawDBGameCount)) : List DBGameCount :=
  (dbGameCounts.getD []).map fun c =>
    { timestamp := c.timestamp
      gameSessionId := c.game_session_id
      gameIdentifier := c.game_identifier }

/-- `JSONParser.hasAnyDiscrepancy`, applied to the raw flag object (which may
be absent altogether). -/
def hasAnyDiscrepancy (flags : Option DiscrepancyFlags) : Bool :=
  match flags with
  | none => false
  | some f =>
      f.ml_vs_postprocessing || f.postprocessing_vs_db ||
      f.missing_in_db || f.extra_in_db

/-- `JSONParser.parseResult`: assembles one FrameResult. The source method
contains no `throw` and no check on `result.index`; it is total. -/
def parseResult (result : RawResult) : FrameResult :=
  { index := result.index
    screenshot := parseScreenshot result.screenshot
    mlInference := parseMLInference result.ml_inference
    postProcessed := parsePostProcessed result.post_processed
    dbSessions := parseDBSessions result.db_sessions
    dbGameCounts := parseDBGameCounts result.db_game_counts
    discrepancyFlags := result.discrepancy_flags.getD DiscrepancyFlags.noFlags
    hasDiscrepancy := hasAnyDiscrepancy result.discrepancy_flags }

structure ParsedSession where
  metadata : SessionMetadata
  results : List FrameResult
  discrepancyCount : Nat
  deriving Repr, DecidableEq

/-- `JSONParser.validateAndParse`: requires `session_id` (JS truthiness: an
empty string also fails the check) and a `results` array; everything else is
defaulted. -/
def validateAndParse (data : RawDoc) : Except String ParsedSession :=
  match data.session_id with
  | none => .error "Missing required field: session_id"
  | some sid =>
    if sid = "" then .error "Missing required field: session_id"
    else
      match data.results with
      | none => .error "Missing or invalid results array"
      | some rs =>
        let results := rs.map parseResult
        .ok
          { metadata :=
              { sessionId := sid
                platform := jsOrStr data.platform "unknown"
                channel := jsOrStr data.channel "unknown"
                date := jsOrStr data.date "unknown"
                startTime := jsOrNull data.start_time
                endTime := jsOrNull data.end_time
                analyzedAt := jsOrNull data.analyzed_at
                total := jsOrNat data.total rs.length }
            results := results
            discrepancyCount := (results.filter (·.hasDiscrepancy)).length }

structure DiscrepancyStats where
  total : Nat
  withDiscrepancies : Nat
  mlVsPostprocessing : Nat
  postprocessingVsDb : Nat
  missingInDb : Nat
  extraInDb : Nat
  deriving Repr, DecidableEq

/-- `JSONParser.getDiscrepancyStats` over a parsed session (the source reads
`this.results` and `this.discrepancyCount`, both set by `validateAndParse`). -/
def getDiscrepancyStats (p : ParsedSession) : DiscrepancyStats :=
  { total := p.results.length
    withDiscrepancies := p.discrepancyCount
    mlVsPostprocessing :=
      (p.results.filter (·.discrepancyFlags.ml_vs_postprocessing)).length
    postprocessingVsDb :=
      (p.results.filter (·.discrepancyFlags.postprocessing_vs_db)).length
    missingInDb :=
      (p.results.filter (·.discrepancyFlags.missing_in_db)).length
    extraInDb :=
      (p.results.filter (·.discrepancyFlags.extra_in_db)).length }

end JSONParser

/-! ## Discrepancy classifier (`DiscrepancyManager`) -/

/-- The `details` object attached to a discrepancy record; each category
attaches a different shape. -/
inductive DiscDetails
  | mlVsPost (mlGames : List MLGame) (postGames : List PPGame)
      (slidingWindowState : List String)
  | postVsDb (postGames : List PPGame) (dbSessions : List DBSession)
  | missingInDb (missingGames : List PPGame) (expectedCount : Nat)
      (actualCount : Nat)
  | extraInDb (extraSessions : List DBSession)
  deriving Repr, DecidableEq

/-- A discrepancy record; `dtype` embeds the source field `type`. -/
structure Discrepancy where
  dtype : String
  title : String
  description : String
  severity : String
  details : DiscDetails
  deriving Repr, DecidableEq

namespace DiscrepancyManager

/-- The local `mlGames` of `analyzeMlVsPost`: `result.mlInference?.numberOfGames || 0`. -/
def mlGamesOf (result : FrameResult) : Nat :=
  (result.mlInference.map (·.numberOfGames)).getD 0

/-- The local `postGames` of `analyzeMlVsPost`: `result.postProcessed?.gameCount || 0`. -/
def postGamesOf (result : FrameResult) : Nat :=
  (result.postProcessed.map (·.gameCount)).getD 0

/-- `DiscrepancyManager.analyzeMlVsPost`. -/
def analyzeMlVsPost (result : FrameResult) : Discrepancy :=
  let mlGames := mlGamesOf result
  let postGames := postGamesOf result
  let sev :=
    if mlGames > postGames then "info"
    else if mlGames < postGames then "error"
    else "warning"
  let description :=
    if mlGames > postGames then
      "ML detected " ++ toString mlGames ++
        " game(s), but post-processing filtered down to " ++
        toString postGames ++
        ". This is normal for sliding window logic building up threshold."
    else if mlGames < postGames then
      "ML detected " ++ toString mlGames ++
        " game(s), but post-processing returned " ++ toString postGames ++
        ". This should not happen!"
    else
      "ML and post-processing both show " ++ toString mlGames ++
        " games, but with different game IDs."
  { dtype := "ml-vs-post"
    title := "ML API vs Post-Processing Mismatch"
    description := description
    severity := sev
    details := .mlVsPost
      ((result.mlInference.map (·.games)).getD [])
      ((result.postProcessed.map (·.games)).getD [])
      ((result.postProcessed.map (·.slidingWindowState)).getD []) }

/-- `DiscrepancyManager.analyzePostVsDb`. -/
def analyzePostVsDb (result : FrameResult) : Discrepancy :=
  let postGames := (result.postProcessed.map (·.gameCount)).getD 0
  let dbSessions := result.dbSessions.length
  { dtype := "post-vs-db"
    title := "Post-Processing vs Database Mismatch"
    description :=
      "Post-processing shows " ++ toString postGames ++
        " game(s), but database has " ++ toString dbSessions ++
        " session(s). This indicates a DB write issue."
    severity := "error"
    details := .postVsDb
      ((result.postProcessed.map (·.games)).getD [])
      result.dbSessions }

/-- `DiscrepancyManager.analyzeMissingInDb`. The JS builds a `Set` of the DB
sessions' `gameSessionId`s and keeps the post-processed games whose id is not
in it; `Set.has` is embedded as membership in the mapped list. -/
def analyzeMissingInDb (result : FrameResult) : Discrepancy :=
  let postGames := (result.postProcessed.map (·.games)).getD []
  let dbSessionIds := result.dbSessions.map (·.gameSessionId)
  let missingGames := postGames.filter fun game =>
    !(dbSessionIds.contains game.gameSessionId)
  { dtype := "missing-in-db"
    title := "Games Missing in Database"
    description :=
      toString missingGames.length ++
        " game(s) from post-processing are missing in the database."
    severity := "error"
    details := .missingInDb missingGames postGames.length
      result.dbSessions.length }

/-- `DiscrepancyManager.analyzeExtraInDb`. -/
def analyzeExtraInDb (result : FrameResult) : Discrepancy :=
  let postGameIds := ((result.postProcessed.map (·.games)).getD []).map
    (·.gameSessionId)
  let extraSessions := result.dbSessions.filter fun s =>
    !(postGameIds.contains s.gameSessionId)
  { dtype := "extra-in-db"
    title := "Extra Sessions in Database"
    description :=
      toString extraSessions.length ++
        " session(s) in database that were not in post-processing output."
    severity := "warning"
    details := .extraInDb extraSessions }

/-- `DiscrepancyManager.analyzeResult`: one record pushed per set flag, in the
fixed source order. -/
def analyzeResult (result : FrameResult) : List Discrepancy :=
  (if result.discrepancyFlags.ml_vs_postprocessing
    then [analyzeMlVsPost result] else []) ++
  (if result.discrepancyFlags.postprocessing_vs_db
    then [analyzePostVsDb result] else []) ++
  (if result.discrepancyFlags.missing_in_db
    then [analyzeMissingInDb result] else []) ++
  (if result.discrepancyFlags.extra_in_db
    then [analyzeExtraInDb result] else [])

/-- Result of `DiscrepancyManager.compareGameLists`; `matched` embeds the
source field `match` (a Lean keyword). -/
structure CompareResult (α β : Type) where
  onlyInFirst : List α
  onlyInSecond : List β
  inBoth : List α
  matched : Bool
  deriving Repr, DecidableEq

/-- `DiscrepancyManager.compareGameLists`: the JS selects the identity of an
item by a field name (`key1`/`key2`); the field accessors are embedded as the
key functions `k1`/`k2`, and the two `Set.has` tests as membership in the
mapped key lists. -/
def compareGameLists (list1 : List α) (list2 : List β)
    (k1 : α → String) (k2 : β → String) : CompareResult α β :=
  let ids1 := list1.map k1
  let ids2 := list2.map k2
  let inFirst := list1.filter fun item => !(ids2.contains (k1 item))
  let inSecond := list2.filter fun item => !(ids1.contains (k2 item))
  let inBoth := list1.filter fun item => ids2.contains (k1 item)
  { onlyInFirst := inFirst
    onlyInSecond := inSecond
    inBoth := inBoth
    matched := inFirst.length == 0 && inSecond.length == 0 }

end DiscrepancyManager

/-! ## Filter engine and navigation (`ScreenshotViewer`) -/

structure FilterCriteria where
  onlyDiscrepancies : Bool
  mlVsPost : Bool
  postVsDb : Bool
  missingInDb : Bool
  extraInDb : Bool
  deriving Repr, DecidableEq

def FilterCriteria.allOff : FilterCriteria :=
  ⟨false, false, false, false, false⟩

namespace JSONParser

/-- The per-result predicate of `JSONParser.filterResults`, with the early
`return false` branches folded into one boolean. -/
def resultPasses (criteria : FilterCriteria) (result : FrameResult) : Bool :=
  if criteria.onlyDiscrepancies && !result.hasDiscrepancy then false
  else if criteria.mlVsPost &&
    !result.discrepancyFlags.ml_vs_postprocessing then false
  else if criteria.postVsDb &&
    !result.discrepancyFlags.postprocessing_vs_db then false
  else if criteria.missingInDb &&
    !result.discrepancyFlags.missing_in_db then false
  else if criteria.extraInDb &&
    !result.discrepancyFlags.extra_in_db then false
  else true

/-- `JSONParser.filterResults`; the source filters `this.results`, passed here
explicitly. -/
def filterResults (criteria : FilterCriteria) (results : List FrameResult) :
    List FrameResult :=
  results.filter (resultPasses criteria)

end JSONParser

/-- `ScreenshotViewer` mutable state. `currentIndex` is a JS number that the
source can drive to `-1` (`last` on an empty view), so it is embedded as an
integer, not a natural. -/
structure ViewerState where
  results : List FrameResult
  filteredResults : List FrameResult
  currentIndex : Int
  filterCriteria : FilterCriteria
  showBoundingBoxes : Bool
  deriving Repr, DecidableEq

namespace ScreenshotViewer

/-- `ScreenshotViewer.applyFilters`: refilter via the parser, fall back to the
full list when the filtered view is empty but the loaded list is not, and
reset an out-of-bounds position to `0`. -/
def applyFilters (s : ViewerState) : ViewerState :=
  let filtered := JSONParser.filterResults s.filterCriteria s.results
  let filtered :=
    if filtered.length == 0 && decide (s.results.length > 0)
    then s.results else filtered
  let idx :=
    if s.currentIndex ≥ (filtered.length : Int) then 0 else s.currentIndex
  { s with filteredResults := filtered, currentIndex := idx }

/-- A call to `applyFilters` together with the value the JS method returns.
The source method has no `return` statement, so the call evaluates to
`undefined`: no boolean fallback flag is handed to the caller, embedded as
`none`. -/
def applyFiltersCall (s : ViewerState) : ViewerState × Option Bool :=
  (applyFilters s, none)

/-- Whether the empty-filter fallback branch of `applyFilters` fires on `s`. -/
def fallbackOccurred (s : ViewerState) : Bool :=
  (JSONParser.filterResults s.filterCriteria s.results).length == 0 &&
    decide (s.results.length > 0)

/-- `ScreenshotViewer.loadResults` (the display calls are UI-only). -/
def loadResults (s : ViewerState) (results : List FrameResult) : ViewerState :=
  let s := applyFilters { s with results := results }
  { s with currentIndex := 0 }

/-- `ScreenshotViewer.next`. -/
def next (s : ViewerState) : ViewerState :=
  if s.currentIndex < (s.filteredResults.length : Int) - 1
  then { s with currentIndex := s.currentIndex + 1 }
  else s

/-- `ScreenshotViewer.previous`. -/
def previous (s : ViewerState) : ViewerState :=
  if s.currentIndex > 0
  then { s with currentIndex := s.currentIndex - 1 }
  else s

/-- `ScreenshotViewer.first`. -/
def first (s : ViewerState) : ViewerState :=
  { s with currentIndex := 0 }

/-- `ScreenshotViewer.last`. -/
def last (s : ViewerState) : ViewerState :=
  { s with currentIndex := (s.filteredResults.length : Int) - 1 }

/-- `ScreenshotViewer.jumpTo`: `findIndex` over the filtered view on the
external `index` field, `-1` meaning not found; returns whether the jump
succeeded. -/
def jumpTo (s : ViewerState) (ix : Nat) : ViewerState × Bool :=
  match s.filteredResults.findIdx? (fun r => r.index == some ix) with
  | some k => ({ s with currentIndex := (k : Int) }, true)
  | none => (s, false)

/-- The five keys `ScreenshotViewer.updateFilter` can receive. -/
inductive FilterName
  | onlyDiscrepancies | mlVsPost | postVsDb | missingInDb | extraInDb
  deriving Repr, DecidableEq

def setCriterion (c : FilterCriteria) (nm : FilterName) (enabled : Bool) :
    FilterCriteria :=
  match nm with
  | .onlyDiscrepancies => { c with onlyDiscrepancies := enabled }
  | .mlVsPost => { c with mlVsPost := enabled }
  | .postVsDb => { c with postVsDb := enabled }
  | .missingInDb => { c with missingInDb := enabled }
  | .extraInDb => { c with extraInDb := enabled }

/-- `ScreenshotViewer.updateFilter`. -/
def updateFilter (s : ViewerState) (nm : FilterName) (enabled : Bool) :
    ViewerState :=
  applyFilters { s with filterCriteria := setCriterion s.filterCriteria nm enabled }

/-- `ScreenshotViewer.clearFilters`. -/
def clearFilters (s : ViewerState) : ViewerState :=
  applyFilters { s with filterCriteria := FilterCriteria.allOff }

/-- One user-visible operation on the viewer, for stating invariants over
operation sequences. -/
inductive ViewerOp
  | updateFilter (nm : FilterName) (enabled : Bool)
  | clearFilters
  | next
  | previous
  | first
  | last
  | jumpTo (ix : Nat)
  deriving Repr, DecidableEq

def applyOp (s : ViewerState) (op : ViewerOp) : ViewerState :=
  match op with
  | .updateFilter nm b => updateFilter s nm b
  | .clearFilters => clearFilters s
  | .next => next s
  | .previous => previous s
  | .first => first s
  | .last => last s
  | .jumpTo ix => (jumpTo s ix).1

def runOps (s : ViewerState) (ops : List ViewerOp) : ViewerState :=
  ops.foldl applyOp s

end ScreenshotViewer

/-! ## Spec-side readings used to compare claims against the code -/

/-- The spec's reading of the category-1 inference count: an absent or failed
(`error` present) inference stage counts `0`. -/
def specMlCount (r : FrameResult) : Nat :=
  match r.mlInference with
  | none => 0
  | some m => if m.error.isSome then 0 else m.numberOfGames

/-- The spec's reading of the category-1 post-processed count: an absent or
failed post-processing stage counts `0`. -/
def specPostCount (r : FrameResult) : Nat :=
  match r.postProcessed with
  | none => 0
  | some p => if p.error.isSome then 0 else p.gameCount

/-- Viewer invariant: non-empty filtered view with an in-bounds current
position. -/
def ViewerInv (s : ViewerState) : Prop :=
  s.results ≠ [] ∧ s.filteredResults ≠ [] ∧
    0 ≤ s.currentIndex ∧ s.currentIndex < (s.filteredResults.length : Int)

/-! ## Concrete inputs used by counterexamples and witnesses -/

/-- A raw result whose ML stage failed (`error` set) yet carries a stored
count of `3`, with the category-1 flag set. -/
def rawFailedMl : RawResult :=
  { index := some 0
    screenshot := none
    ml_inference := some
      { games := none
        number_of_games := some 3
        latency_ms := none
        is_uniform_frame := none
        error := some "ML API failure" }
    post_processed := none
    db_sessions := none
    db_game_counts := none
    discrepancy_flags := some ⟨true, false, false, false⟩ }

/-- `rawFailedMl` after parsing. -/
def failedMlFrame : FrameResult :=
  JSONParser.parseResult rawFailedMl

/-- A frame with the category-1 flag set and both sub-stages absent. -/
def absentStagesFrame : FrameResult :=
  { index := some 1
    screenshot := none
    mlInference := none
    postProcessed := none
    dbSessions := []
    dbGameCounts := []
    discrepancyFlags := ⟨true, false, false, false⟩
    hasDiscrepancy := true }

def ppGame42 : PPGame := ⟨some "game-42", some "gs-42"⟩

def ppGame7 : PPGame := ⟨some "game-7", some "gs-7"⟩

def dbSess7 : DBSession :=
  ⟨some "gs-7", some "game-7", some "game-7", none, none, 0, true⟩

def dbSess9 : DBSession :=
  ⟨some "gs-9", some "game-9", some "game-9", none, none, 0, true⟩

/-- Post-processing emitted `gs-42` and `gs-7`; the database only holds
`gs-7`; the `missing_in_db` flag is set. -/
def missingFrame : FrameResult :=
  { index := some 2
    screenshot := none
    mlInference := none
    postProcessed := some
      { games := [ppGame42, ppGame7]
        gameCount := 2
        eventType := "UNKNOWN"
        appliedThreshold := false
        slidingWindowState := []
        error := none }
    dbSessions := [dbSess7]
    dbGameCounts := []
    discrepancyFlags := ⟨false, false, true, false⟩
    hasDiscrepancy := true }

/-- The database holds `gs-7` and `gs-9`; post-processing only emitted
`gs-7`; the `extra_in_db` flag is set. -/
def extraFrame : FrameResult :=
  { index := some 3
    screenshot := none
    mlInference := none
    postProcessed := some
      { games := [ppGame7]
        gameCount := 1
        eventType := "UNKNOWN"
        appliedThreshold := false
        slidingWindowState := []
        error := none }
    dbSessions := [dbSess7, dbSess9]
    dbGameCounts := []
    discrepancyFlags := ⟨false, false, false, true⟩
    hasDiscrepancy := true }

/-- Two one-element game lists sharing the key `"a"` but with different
payloads, for exercising `compareGameLists`. -/
def cmpList1 : List (String × Nat) := [("a", 1)]

def cmpList2 : List (String × Nat) := [("a", 2)]

/-- A frame with no discrepancy flags set. -/
def cleanFrame : FrameResult :=
  { index := some 4
    screenshot := none
    mlInference := none
    postProcessed := none
    dbSessions := []
    dbGameCounts := []
    discrepancyFlags := DiscrepancyFlags.noFlags
    hasDiscrepancy := false }

/-- A viewer holding one discrepancy-free result while the
`onlyDiscrepancies` filter is active: the combined filter matches nothing. -/
def fallbackState : ViewerState :=
  { results := [cleanFrame]
    filteredResults := []
    currentIndex := 0
    filterCriteria := ⟨true, false, false, false, false⟩
    showBoundingBoxes := false }

/-- A frame whose external index is `5`. -/
def navFrame : FrameResult :=
  { index := some 5
    screenshot := none
    mlInference := none
    postProcessed := none
    dbSessions := []
    dbGameCounts := []
    discrepancyFlags := DiscrepancyFlags.noFlags
    hasDiscrepancy := false }

/-- A viewer positioned on its single (filtered) result `navFrame`. -/
def navState : ViewerState :=
  { results := [navFrame]
    filteredResults := [navFrame]
    currentIndex := 0
    filterCriteria := FilterCriteria.allOff
    showBoundingBoxes := false }

/-- A raw result carrying one set discrepancy flag. -/
def rawFlagged : RawResult :=
  { index := some 0
    screenshot := none
    ml_inference := none
    post_processed := none
    db_sessions := none
    db_game_counts := none
    discrepancy_flags := some ⟨true, false, false, false⟩ }

/-- A raw result with no `discrepancy_flags` object at all. -/
def rawClean : RawResult :=
  { index := some 1
    screenshot := none
    ml_inference := none
    post_processed := none
    db_sessions := none
    db_game_counts := none
    discrepancy_flags := none }

/-- A wire document with the two raw results above and all optional
metadata absent. -/
def docTwoResults : RawDoc :=
  { session_id := some "sess-1"
    platform := none
    channel := none
    date := none
    start_time := none
    end_time := none
    analyzed_at := none
    total := none
    results := some [rawFlagged, rawClean] }

/-- What `validateAndParse` produces on `docTwoResults`. -/
def parsedTwoResults : JSONParser.ParsedSession :=
  { metadata :=
      { sessionId := "sess-1"
        platform := "unknown"
        channel := "unknown"
        date := "unknown"
        startTime := none
        endTime := none
        analyzedAt := none
        total := 2 }
    results := [JSONParser.parseResult rawFlagged, JSONParser.parseResult rawClean]
    discrepancyCount := 1 }

/-- A raw DB session whose `matches_screenshot` field is absent. -/
def rawSessionNoMs : RawDBSession :=
  { game_session_id := some "gs-1"
    game_identifier := some "game-1"
    game_name := none
    start_time := none
    end_time := none
    true_airtime := none
    matches_screenshot := none }

/-- A raw ML inference block with every field absent. -/
def rawMlEmpty : RawMLInference :=
  { games := none
    number_of_games := none
    latency_ms := none
    is_uniform_frame := none
    error := none }

/-- A raw post-processing block with every field absent. -/
def rawPpEmpty : RawPostProcessed :=
  { games := none
    game_count := none
    event_type := none
    applied_threshold := none
    sliding_window_state := none
    error := none }

/-- A raw result with every field absent, `index` included. -/
def rawAllAbsent : RawResult :=
  { index := none
    screenshot := none
    ml_inference := none
    post_processed := none
    db_sessions := none
    db_game_counts := none
    discrepancy_flags := none }

/-- A second all-absent raw result used by the default-value theorems. -/
def rawNoLists : RawResult :=
  { index := some 7
    screenshot := none
    ml_inference := none
    post_processed := none
    db_sessions := none
    db_game_counts := none
    discrepancy_flags := none }

/-- An operation sequence mixing filtering and every navigation move. -/
def mixedOps : List ScreenshotViewer.ViewerOp :=
  [.updateFilter .onlyDiscrepancies true, .next, .last, .jumpTo 5,
   .previous, .first, .clearFilters, .jumpTo 99]

/-! ## Helper lemmas -/

theorem contains_map_false_iff {α β : Type} [BEq β] [LawfulBEq β]
    (l : List α) (f : α → β) (x : β) :
    ((l.map f).contains x = false) ↔ ∀ a ∈ l, f a ≠ x := by
  simp

theorem not_contains_map_eq_decide {α β : Type} [BEq β] [LawfulBEq β]
    [DecidableEq β] (l : List α) (f : α → β) (x : β) :
    (!((l.map f).contains x)) = decide (∀ a ∈ l, f a ≠ x) := by
  cases hc : (l.map f).contains x with
  | false =>
      have h := (contains_map_false_iff l f x).mp hc
      simp only [Bool.not_false]
      exact (decide_eq_true h).symm
  | true =>
      have h : ¬ ∀ a ∈ l, f a ≠ x := by
        intro hall
        rw [(contains_map_false_iff l f x).mpr hall] at hc
        exact Bool.false_ne_true hc
      simp only [Bool.not_true]
      exact (decide_eq_false h).symm

theorem mlVsPost_dtype (r : FrameResult) :
    (DiscrepancyManager.analyzeMlVsPost r).dtype = "ml-vs-post" := rfl

theorem postVsDb_dtype (r : FrameResult) :
    (DiscrepancyManager.analyzePostVsDb r).dtype = "post-vs-db" := rfl

theorem missingInDb_dtype (r : FrameResult) :
    (DiscrepancyManager.analyzeMissingInDb r).dtype = "missing-in-db" := rfl

theorem extraInDb_dtype (r : FrameResult) :
    (DiscrepancyManager.analyzeExtraInDb r).dtype = "extra-in-db" := rfl

/-- Filtering `analyzeResult` by record type isolates the record of the
corresponding flag: each category contributes its record exactly when its
flag is set. -/
theorem analyzeResult_filter_by_dtype (r : FrameResult) :
    ((DiscrepancyManager.analyzeResult r).filter
        (fun d => d.dtype == "ml-vs-post")
      = if r.discrepancyFlags.ml_vs_postprocessing
        then [DiscrepancyManager.analyzeMlVsPost r] else [])
  ∧ ((DiscrepancyManager.analyzeResult r).filter
        (fun d => d.dtype == "post-vs-db")
      = if r.discrepancyFlags.postprocessing_vs_db
        then [DiscrepancyManager.analyzePostVsDb r] else [])
  ∧ ((DiscrepancyManager.analyzeResult r).filter
        (fun d => d.dtype == "missing-in-db")
      = if r.discrepancyFlags.missing_in_db
        then [DiscrepancyManager.analyzeMissingInDb r] else [])
  ∧ ((DiscrepancyManager.analyzeResult r).filter
        (fun d => d.dtype == "extra-in-db")
      = if r.discrepancyFlags.extra_in_db
        then [DiscrepancyManager.analyzeExtraInDb r] else []) := by
  unfold DiscrepancyManager.analyzeResult
  cases h1 : r.discrepancyFlags.ml_vs_postprocessing <;>
    cases h2 : r.discrepancyFlags.postprocessing_vs_db <;>
      cases h3 : r.discrepancyFlags.missing_in_db <;>
        cases h4 : r.discrepancyFlags.extra_in_db <;>
          simp [List.filter_append, mlVsPost_dtype, postVsDb_dtype,
            missingInDb_dtype, extraInDb_dtype]

/-! ## C1 -/

/-- C1 counterexample: the frame parsed from `rawFailedMl` has a *failed*
inference stage (`error` set) whose stored count is `3` and an absent
post-processing stage. Under the claim both comparison counts are `0`
("an absent or failed ... sub-stage is treated as count 0"), which would
force severity `warning`; the code ignores the `error` field, compares
`3 > 0` and emits severity `info`. -/
theorem c1_failed_stage_counterexample :
    specMlCount failedMlFrame = specPostCount failedMlFrame ∧
    failedMlFrame.discrepancyFlags.ml_vs_postprocessing = true ∧
    (DiscrepancyManager.analyzeResult failedMlFrame).map (·.severity)
      = ["info"] := by
  decide

/-- C1 (amended): when the `ml_vs_postprocessing` flag is set, `analyzeResult`
emits exactly one category-1 record; its severity is `info` when the
inference count exceeds the post-processed count, `error` when it is below
it, and `warning` when the two are equal, where an *absent* sub-stage
contributes count `0` (a failed sub-stage contributes its stored count
unchanged), and the analysis is total. -/
theorem c1_mlVsPost_classification (r : FrameResult)
    (h : r.discrepancyFlags.ml_vs_postprocessing = true) :
    (DiscrepancyManager.analyzeResult r).filter
        (fun d => d.dtype == "ml-vs-post")
      = [DiscrepancyManager.analyzeMlVsPost r]
    ∧ (r.mlInference = none → DiscrepancyManager.mlGamesOf r = 0)
    ∧ (r.postProcessed = none → DiscrepancyManager.postGamesOf r = 0)
    ∧ (DiscrepancyManager.postGamesOf r < DiscrepancyManager.mlGamesOf r →
        (DiscrepancyManager.analyzeMlVsPost r).severity = "info")
    ∧ (DiscrepancyManager.mlGamesOf r < DiscrepancyManager.postGamesOf r →
        (DiscrepancyManager.analyzeMlVsPost r).severity = "error")
    ∧ (DiscrepancyManager.mlGamesOf r = DiscrepancyManager.postGamesOf r →
        (DiscrepancyManager.analyzeMlVsPost r).severity = "warning") := by
  refine ⟨?_, ?_, ?_, ?_, ?_, ?_⟩
  · rw [(analyzeResult_filter_by_dtype r).1, h, if_pos rfl]
  · intro hml
    simp [DiscrepancyManager.mlGamesOf, hml]
  · intro hpp
    simp [DiscrepancyManager.postGamesOf, hpp]
  · intro hgt
    simp [DiscrepancyManager.analyzeMlVsPost, hgt, Nat.not_lt_of_lt hgt]
  · intro hlt
    simp [DiscrepancyManager.analyzeMlVsPost, hlt, Nat.not_lt_of_lt hlt]
  · intro heq
    simp [DiscrepancyManager.analyzeMlVsPost, heq]

/-- C1 witness: on a frame with the flag set and both stages absent, both
counts are `0` and the classification is `warning`. -/
theorem c1_mlVsPost_classification_witness :
    absentStagesFrame.discrepancyFlags.ml_vs_postprocessing = true ∧
    DiscrepancyManager.mlGamesOf absentStagesFrame =
      DiscrepancyManager.postGamesOf absentStagesFrame ∧
    (DiscrepancyManager.analyzeMlVsPost absentStagesFrame).severity
      = "warning" :=
  ⟨rfl, rfl, (c1_mlVsPost_classification absentStagesFrame rfl).2.2.2.2.2 rfl⟩

/-! ## C2 -/

/-- C2: when the `missing_in_db` flag is set, `analyzeResult` emits exactly
one category-3 record; it has severity `error`, its `missing` evidence is
exactly the post-processed games whose `gameSessionId` appears in no DB
session, its description states the size of that set, and the evidence
carries the post-processed game count as `expectedCount` and the DB session
count as `actualCount`. -/
theorem c2_missingInDb_spec (r : FrameResult)
    (h : r.discrepancyFlags.missing_in_db = true) :
    (DiscrepancyManager.analyzeResult r).filter
        (fun d => d.dtype == "missing-in-db")
      = [DiscrepancyManager.analyzeMissingInDb r]
    ∧ (DiscrepancyManager.analyzeMissingInDb r).severity = "error"
    ∧ (DiscrepancyManager.analyzeMissingInDb r).details =
        DiscDetails.missingInDb
          (((r.postProcessed.map (·.games)).getD []).filter fun g =>
            decide (∀ s ∈ r.dbSessions, s.gameSessionId ≠ g.gameSessionId))
          ((r.postProcessed.map (·.games)).getD []).length
          r.dbSessions.length
    ∧ (DiscrepancyManager.analyzeMissingInDb r).description =
        toString (((r.postProcessed.map (·.games)).getD []).filter fun g =>
          decide (∀ s ∈ r.dbSessions, s.gameSessionId ≠ g.gameSessionId)).length
          ++ " game(s) from post-processing are missing in the database." := by
  have hmiss : ∀ gs : List PPGame,
      (gs.filter fun g =>
          !((r.dbSessions.map (·.gameSessionId)).contains g.gameSessionId))
        = gs.filter fun g =>
            decide (∀ s ∈ r.dbSessions, s.gameSessionId ≠ g.gameSessionId) := by
    intro gs
    apply List.filter_congr
    intro g _
    exact not_contains_map_eq_decide r.dbSessions (·.gameSessionId)
      g.gameSessionId
  refine ⟨?_, rfl, ?_, ?_⟩
  · rw [(analyzeResult_filter_by_dtype r).2.2.1, h, if_pos rfl]
  · simp only [DiscrepancyManager.analyzeMissingInDb, hmiss]
  · simp only [DiscrepancyManager.analyzeMissingInDb, hmiss]

/-- C2 witness: on `missingFrame` (post-processed `gs-42`, `gs-7`; DB holds
only `gs-7`) the record reports the single missing game `gs-42`, expected
count `2`, actual count `1`. -/
theorem c2_missingInDb_witness :
    missingFrame.discrepancyFlags.missing_in_db = true ∧
    (DiscrepancyManager.analyzeMissingInDb missingFrame).severity = "error" ∧
    (DiscrepancyManager.analyzeMissingInDb missingFrame).details =
      DiscDetails.missingInDb [ppGame42] 2 1 ∧
    (DiscrepancyManager.analyzeMissingInDb missingFrame).description =
      "1 game(s) from post-processing are missing in the database." := by
  have hth := c2_missingInDb_spec missingFrame rfl
  refine ⟨rfl, hth.2.1, ?_, ?_⟩
  · rw [hth.2.2.1]
    decide
  · rw [hth.2.2.2]
    decide

/-! ## C3 -/

/-- C3: when the `extra_in_db` flag is set, `analyzeResult` emits exactly one
category-4 record; it has severity `warning` (not `error`) and its evidence
is exactly the DB sessions whose `gameSessionId` appears in no post-processed
game — the inverse set difference of category 3. -/
theorem c3_extraInDb_spec (r : FrameResult)
    (h : r.discrepancyFlags.extra_in_db = true) :
    (DiscrepancyManager.analyzeResult r).filter
        (fun d => d.dtype == "extra-in-db")
      = [DiscrepancyManager.analyzeExtraInDb r]
    ∧ (DiscrepancyManager.analyzeExtraInDb r).severity = "warning"
    ∧ (DiscrepancyManager.analyzeExtraInDb r).severity ≠ "error"
    ∧ (DiscrepancyManager.analyzeExtraInDb r).details =
        DiscDetails.extraInDb
          (r.dbSessions.filter fun s =>
            decide (∀ g ∈ (r.postProcessed.map (·.games)).getD [],
              g.gameSessionId ≠ s.gameSessionId)) := by
  have hextra :
      (r.dbSessions.filter fun s =>
          !((((r.postProcessed.map (·.games)).getD []).map
              (·.gameSessionId)).contains s.gameSessionId))
        = r.dbSessions.filter fun s =>
            decide (∀ g ∈ (r.postProcessed.map (·.games)).getD [],
              g.gameSessionId ≠ s.gameSessionId) := by
    apply List.filter_congr
    intro s _
    exact not_contains_map_eq_decide ((r.postProcessed.map (·.games)).getD [])
      (·.gameSessionId) s.gameSessionId
  refine ⟨?_, rfl, ?_, ?_⟩
  · rw [(analyzeResult_filter_by_dtype r).2.2.2, h, if_pos rfl]
  · exact (by decide : ("warning" : String) ≠ "error")
  · simp only [DiscrepancyManager.analyzeExtraInDb, hextra]

/-- C3 witness: on `extraFrame` (DB holds `gs-7` and `gs-9`; post-processing
emitted only `gs-7`) the record has severity `warning` and evidence
`[dbSess9]`. -/
theorem c3_extraInDb_witness :
    extraFrame.discrepancyFlags.extra_in_db = true ∧
    (DiscrepancyManager.analyzeExtraInDb extraFrame).severity = "warning" ∧
    (DiscrepancyManager.analyzeExtraInDb extraFrame).details =
      DiscDetails.extraInDb [dbSess9] := by
  have hth := c3_extraInDb_spec extraFrame rfl
  refine ⟨rfl, hth.2.1, ?_⟩
  rw [hth.2.2.2]
  decide

/-! ## C4 -/

/-- C4 counterexample: `cmpList1 = [("a", 1)]` and `cmpList2 = [("a", 2)]`
share the key `"a"`, so `inBoth` is non-empty either way — but it is drawn
from the *first* argument, so swapping the inputs changes it from
`[("a", 1)]` to `[("a", 2)]`: `inBoth` is not left unchanged by the swap, as
the claim requires. -/
theorem c4_compareGameLists_counterexample :
    (DiscrepancyManager.compareGameLists cmpList1 cmpList2
        Prod.fst Prod.fst).inBoth = [("a", 1)] ∧
    (DiscrepancyManager.compareGameLists cmpList2 cmpList1
        Prod.fst Prod.fst).inBoth = [("a", 2)] ∧
    (DiscrepancyManager.compareGameLists cmpList1 cmpList2
        Prod.fst Prod.fst).inBoth ≠
      (DiscrepancyManager.compareGameLists cmpList2 cmpList1
        Prod.fst Prod.fst).inBoth := by
  decide

/-- C4 (amended): swapping the two inputs of `compareGameLists` (with their
key functions) swaps `onlyInFirst` with `onlyInSecond` and leaves the
`matched` boolean unchanged, and `matched` is true iff both difference sets
are empty; `inBoth` is drawn from the first input, so it is *not* preserved
by the swap in general. -/
theorem c4_compareGameLists_swap {α β : Type} (list1 : List α) (list2 : List β)
    (k1 : α → String) (k2 : β → String) :
    (DiscrepancyManager.compareGameLists list2 list1 k2 k1).onlyInFirst
      = (DiscrepancyManager.compareGameLists list1 list2 k1 k2).onlyInSecond
    ∧ (DiscrepancyManager.compareGameLists list2 list1 k2 k1).onlyInSecond
      = (DiscrepancyManager.compareGameLists list1 list2 k1 k2).onlyInFirst
    ∧ (DiscrepancyManager.compareGameLists list2 list1 k2 k1).matched
      = (DiscrepancyManager.compareGameLists list1 list2 k1 k2).matched
    ∧ ((DiscrepancyManager.compareGameLists list1 list2 k1 k2).matched = true
        ↔ (DiscrepancyManager.compareGameLists list1 list2 k1 k2).onlyInFirst = []
          ∧ (DiscrepancyManager.compareGameLists list1 list2 k1 k2).onlyInSecond = []) := by
  refine ⟨rfl, rfl, ?_, ?_⟩
  · simp only [DiscrepancyManager.compareGameLists]
    exact Bool.and_comm _ _
  · simp only [DiscrepancyManager.compareGameLists, Bool.and_eq_true,
      beq_iff_eq, List.length_eq_zero]

/-! ## C5 -/

/-- C5 counterexample: on `fallbackState` (a non-empty session whose one
result matches no active filter) the fallback fires and the full sequence is
presented, yet the `applyFilters` call returns no boolean flag at all (the
JS method has no `return` statement), so the caller is not informed that the
fallback occurred. -/
theorem c5_fallback_counterexample :
    ScreenshotViewer.fallbackOccurred fallbackState = true ∧
    (ScreenshotViewer.applyFiltersCall fallbackState).1.filteredResults
      = fallbackState.results ∧
    (ScreenshotViewer.applyFiltersCall fallbackState).2 = none ∧
    (ScreenshotViewer.applyFiltersCall fallbackState).2
      ≠ some (ScreenshotViewer.fallbackOccurred fallbackState) := by
  refine ⟨rfl, by decide, rfl, by decide⟩

/-- C5 (amended): whenever the AND-combined filter yields an empty sequence
on a non-empty session, `applyFilters` presents the full unfiltered
sequence — but the call yields no boolean fallback flag, so the caller is
not informed. -/
theorem c5_fallback_presents_all (s : ViewerState)
    (hempty : JSONParser.filterResults s.filterCriteria s.results = [])
    (hne : s.results ≠ []) :
    (ScreenshotViewer.applyFilters s).filteredResults = s.results ∧
    (ScreenshotViewer.applyFiltersCall s).2 = none := by
  refine ⟨?_, rfl⟩
  have hlen : 0 < s.results.length := List.length_pos.mpr hne
  simp [ScreenshotViewer.applyFilters, hempty, hlen]

/-- C5 witness: the fallback theorem applied to `fallbackState`. -/
theorem c5_fallback_presents_all_witness :
    JSONParser.filterResults fallbackState.filterCriteria fallbackState.results
      = [] ∧
    fallbackState.results ≠ [] ∧
    (ScreenshotViewer.applyFilters fallbackState).filteredResults
      = fallbackState.results ∧
    (ScreenshotViewer.applyFiltersCall fallbackState).2 = none := by
  have hth := c5_fallback_presents_all fallbackState rfl (by decide)
  exact ⟨rfl, by decide, hth.1, hth.2⟩

/-! ## C6 -/

/-- C6: `next` at the last position and `previous` at position 0 leave the
state unchanged (no wrap-around); `jumpTo` searches the filtered view for a
result whose external `index` equals the argument and either returns `true`
with the position moved onto such a result, or returns `false` with the
whole state unchanged — it is a total function and never throws. -/
theorem c6_navigation (s : ViewerState) (ix : Nat) :
    (s.currentIndex = (s.filteredResults.length : Int) - 1 →
      ScreenshotViewer.next s = s)
  ∧ (s.currentIndex = 0 → ScreenshotViewer.previous s = s)
  ∧ ((∃ r ∈ s.filteredResults, r.index = some ix) →
      (ScreenshotViewer.jumpTo s ix).2 = true ∧
      ∃ k : Nat, (ScreenshotViewer.jumpTo s ix).1.currentIndex = (k : Int) ∧
        ∃ hk : k < s.filteredResults.length,
          (s.filteredResults.get ⟨k, hk⟩).index = some ix)
  ∧ ((∀ r ∈ s.filteredResults, r.index ≠ some ix) →
      ScreenshotViewer.jumpTo s ix = (s, false)) := by
  refine ⟨?_, ?_, ?_, ?_⟩
  · intro h
    simp [ScreenshotViewer.next, h]
  · intro h
    simp [ScreenshotViewer.previous, h]
  · rintro ⟨r, hr, hix⟩
    have hany : s.filteredResults.any (fun r => r.index == some ix) = true :=
      List.any_eq_true.mpr ⟨r, hr, by simp [hix]⟩
    have hsome : (s.filteredResults.findIdx?
        (fun r => r.index == some ix)).isSome := by
      rw [List.findIdx?_isSome, hany]
    obtain ⟨k, hk0⟩ := Option.isSome_iff_exists.mp hsome
    have hk := hk0
    rw [List.findIdx?_eq_some_iff_getElem] at hk
    obtain ⟨hlt, hp, -⟩ := hk
    refine ⟨?_, k, ?_, hlt, ?_⟩
    · simp [ScreenshotViewer.jumpTo, hk0]
    · simp [ScreenshotViewer.jumpTo, hk0]
    · rw [List.get_eq_getElem]
      exact beq_iff_eq.mp hp
  · intro hall
    have hnone : s.filteredResults.findIdx?
        (fun r => r.index == some ix) = none :=
      List.findIdx?_eq_none_iff.mpr fun r hr => by simp [hall r hr]
    simp [ScreenshotViewer.jumpTo, hnone]

/-- C6 witness: on `navState` (one filtered result with external index `5`,
position `0`) `next` and `previous` are no-ops, `jumpTo 5` succeeds and
`jumpTo 99` fails leaving the state unchanged. -/
theorem c6_navigation_witness :
    ScreenshotViewer.next navState = navState ∧
    ScreenshotViewer.previous navState = navState ∧
    (ScreenshotViewer.jumpTo navState 5).2 = true ∧
    ScreenshotViewer.jumpTo navState 99 = (navState, false) := by
  refine ⟨(c6_navigation navState 5).1 (by decide),
    (c6_navigation navState 5).2.1 (by decide),
    ((c6_navigation navState 5).2.2.1 ⟨navFrame, by decide, by decide⟩).1,
    (c6_navigation navState 99).2.2.2 (by decide)⟩

/-! ## C7 -/

/-- C7: for every parsed FrameResult, `hasDiscrepancy` equals the boolean OR
of the four discrepancy flags — `false` when the `discrepancy_flags` object
is absent — and on every successfully parsed session the `withDiscrepancies`
statistic equals the number of results with at least one true flag. -/
theorem c7_hasDiscrepancy_spec :
    (∀ raw : RawResult,
      (JSONParser.parseResult raw).hasDiscrepancy =
        ((JSONParser.parseResult raw).discrepancyFlags.ml_vs_postprocessing ||
         (JSONParser.parseResult raw).discrepancyFlags.postprocessing_vs_db ||
         (JSONParser.parseResult raw).discrepancyFlags.missing_in_db ||
         (JSONParser.parseResult raw).discrepancyFlags.extra_in_db))
  ∧ (∀ raw : RawResult, raw.discrepancy_flags = none →
      (JSONParser.parseResult raw).hasDiscrepancy = false)
  ∧ (∀ (d : RawDoc) (p : JSONParser.ParsedSession),
      JSONParser.validateAndParse d = .ok p →
      (JSONParser.getDiscrepancyStats p).withDiscrepancies =
        (p.results.filter fun r =>
          r.discrepancyFlags.ml_vs_postprocessing ||
          r.discrepancyFlags.postprocessing_vs_db ||
          r.discrepancyFlags.missing_in_db ||
          r.discrepancyFlags.extra_in_db).length) := by
  have h1 : ∀ raw : RawResult,
      (JSONParser.parseResult raw).hasDiscrepancy =
        ((JSONParser.parseResult raw).discrepancyFlags.ml_vs_postprocessing ||
         (JSONParser.parseResult raw).discrepancyFlags.postprocessing_vs_db ||
         (JSONParser.parseResult raw).discrepancyFlags.missing_in_db ||
         (JSONParser.parseResult raw).discrepancyFlags.extra_in_db) := by
    intro raw
    cases hf : raw.discrepancy_flags with
    | none =>
        simp [JSONParser.parseResult, JSONParser.hasAnyDiscrepancy, hf,
          DiscrepancyFlags.noFlags]
    | some f =>
        simp [JSONParser.parseResult, JSONParser.hasAnyDiscrepancy, hf]
  refine ⟨h1, ?_, ?_⟩
  · intro raw h
    simp [JSONParser.parseResult, JSONParser.hasAnyDiscrepancy, h]
  · intro d p h
    unfold JSONParser.validateAndParse at h
    cases hsid : d.session_id with
    | none =>
        rw [hsid] at h
        exact absurd h (by simp)
    | some sid =>
        rw [hsid] at h
        dsimp only at h
        by_cases hsidE : sid = ""
        · rw [if_pos hsidE] at h
          exact absurd h (by simp)
        · rw [if_neg hsidE] at h
          cases hres : d.results with
          | none =>
              rw [hres] at h
              exact absurd h (by simp)
          | some rs =>
              rw [hres] at h
              dsimp only at h
              simp only [Except.ok.injEq] at h
              subst h
              have hcong : ∀ x ∈ rs.map JSONParser.parseResult,
                  x.hasDiscrepancy =
                    (x.discrepancyFlags.ml_vs_postprocessing ||
                     x.discrepancyFlags.postprocessing_vs_db ||
                     x.discrepancyFlags.missing_in_db ||
                     x.discrepancyFlags.extra_in_db) := by
                intro x hx
                obtain ⟨raw, -, rfl⟩ := List.mem_map.mp hx
                exact h1 raw
              simp only [JSONParser.getDiscrepancyStats]
              exact congrArg List.length (List.filter_congr hcong)

/-- C7 witness: on `docTwoResults` (one flagged result, one with no flag
object) parsing succeeds and `withDiscrepancies` is `1`, the number of
results with at least one true flag. -/
theorem c7_hasDiscrepancy_spec_witness :
    JSONParser.validateAndParse docTwoResults = .ok parsedTwoResults ∧
    (JSONParser.getDiscrepancyStats parsedTwoResults).withDiscrepancies =
      (parsedTwoResults.results.filter fun r =>
        r.discrepancyFlags.ml_vs_postprocessing ||
        r.discrepancyFlags.postprocessing_vs_db ||
        r.discrepancyFlags.missing_in_db ||
        r.discrepancyFlags.extra_in_db).length ∧
    (JSONParser.getDiscrepancyStats parsedTwoResults).withDiscrepancies = 1 := by
  have hok : JSONParser.validateAndParse docTwoResults = .ok parsedTwoResults := by
    rfl
  exact ⟨hok, c7_hasDiscrepancy_spec.2.2 docTwoResults parsedTwoResults hok,
    by decide⟩

/-! ## C8 -/

/-- C8 counterexample: a DB session row whose `matches_screenshot` field is
absent parses with `matchesScreenshot = true` (the source computes
`matches_screenshot !== false`), not the claimed default `false`. -/
theorem c8_matches_screenshot_counterexample :
    rawSessionNoMs.matches_screenshot = none ∧
    (JSONParser.parseDBSessions (some [rawSessionNoMs])).map
      (·.matchesScreenshot) = [true] := by
  decide

/-- C8 (amended): during parsing, `platform`/`channel`/`date` default to
`"unknown"`, `total` defaults to `results.length`, numeric fields default to
`0`, list fields default to the empty sequence, and the boolean fields
`is_uniform_frame` and `applied_threshold` default to `false` — but
`matches_screenshot` defaults to `true` (it is `false` only when explicitly
`false`). -/
theorem c8_parsing_defaults (d : RawDoc) (p : JSONParser.ParsedSession)
    (rs : List RawResult) (m : RawMLInference) (pp : RawPostProcessed)
    (s : RawDBSession) (r : RawResult)
    (hok : JSONParser.validateAndParse d = .ok p)
    (hres : d.results = some rs) :
    (d.platform = none → p.metadata.platform = "unknown")
  ∧ (d.channel = none → p.metadata.channel = "unknown")
  ∧ (d.date = none → p.metadata.date = "unknown")
  ∧ (d.total = none → p.metadata.total = rs.length)
  ∧ (m.number_of_games = none →
      (JSONParser.parseMLInference (some m)).map (·.numberOfGames) = some 0)
  ∧ (m.latency_ms = none →
      (JSONParser.parseMLInference (some m)).map (·.latencyMs) = some 0)
  ∧ (m.is_uniform_frame = none →
      (JSONParser.parseMLInference (some m)).map (·.isUniformFrame)
        = some false)
  ∧ (m.games = none →
      (JSONParser.parseMLInference (some m)).map (·.games) = some [])
  ∧ (pp.game_count = none →
      (JSONParser.parsePostProcessed (some pp)).map (·.gameCount) = some 0)
  ∧ (pp.applied_threshold = none →
      (JSONParser.parsePostProcessed (some pp)).map (·.appliedThreshold)
        = some false)
  ∧ (pp.games = none →
      (JSONParser.parsePostProcessed (some pp)).map (·.games) = some [])
  ∧ (pp.sliding_window_state = none →
      (JSONParser.parsePostProcessed (some pp)).map (·.slidingWindowState)
        = some [])
  ∧ (s.true_airtime = none →
      (JSONParser.parseDBSessions (some [s])).map (·.trueAirtime) = [0])
  ∧ (s.matches_screenshot = none →
      (JSONParser.parseDBSessions (some [s])).map (·.matchesScreenshot)
        = [true])
  ∧ (r.db_sessions = none → (JSONParser.parseResult r).dbSessions = [])
  ∧ (r.db_game_counts = none → (JSONParser.parseResult r).dbGameCounts = []) := by
  unfold JSONParser.validateAndParse at hok
  cases hsid : d.session_id with
  | none =>
      rw [hsid] at hok
      exact absurd hok (by simp)
  | some sid =>
      rw [hsid] at hok
      dsimp only at hok
      by_cases hsidE : sid = ""
      · rw [if_pos hsidE] at hok
        exact absurd hok (by simp)
      · rw [if_neg hsidE] at hok
        rw [hres] at hok
        dsimp only at hok
        simp only [Except.ok.injEq] at hok
        subst hok
        refine ⟨?_, ?_, ?_, ?_, ?_, ?_, ?_, ?_, ?_, ?_, ?_, ?_, ?_, ?_, ?_, ?_⟩ <;>
          intro hx <;>
          simp [hx, jsOrStr, jsOrNat, jsOrBool, jsOrNull, jsOrOptStr,
            JSONParser.parseMLInference, JSONParser.parsePostProcessed,
            JSONParser.parseDBSessions, JSONParser.parseDBGameCounts,
            JSONParser.parseResult]

/-- C8 witness: the defaults theorem applied to an all-absent document and
all-absent nested blocks. -/
theorem c8_parsing_defaults_witness :
    parsedTwoResults.metadata.platform = "unknown" ∧
    parsedTwoResults.metadata.total = 2 ∧
    (JSONParser.parseMLInference (some rawMlEmpty)).map (·.numberOfGames)
      = some 0 ∧
    (JSONParser.parseMLInference (some rawMlEmpty)).map (·.isUniformFrame)
      = some false ∧
    (JSONParser.parsePostProcessed (some rawPpEmpty)).map (·.appliedThreshold)
      = some false ∧
    (JSONParser.parseDBSessions (some [rawSessionNoMs])).map
      (·.matchesScreenshot) = [true] ∧
    (JSONParser.parseResult rawNoLists).dbSessions = [] := by
  obtain ⟨p1, p2, p3, p4, p5, p6, p7, p8, p9, p10, p11, p12, p13, p14, p15, p16⟩ :=
    c8_parsing_defaults docTwoResults parsedTwoResults [rawFlagged, rawClean]
      rawMlEmpty rawPpEmpty rawSessionNoMs rawNoLists rfl rfl
  exact ⟨p1 rfl, p4 rfl, p5 rfl, p7 rfl, p10 rfl, p14 rfl, p15 rfl⟩

/-! ## C9 -/

/-- C9 counterexample: `rawAllAbsent` has no `index` field, yet `parseResult`
completes normally and returns a well-defined FrameResult with an absent
index — the source method contains no throw and never checks
`result.index`, so the claimed "throws iff index absent" fails. -/
theorem c9_no_index_counterexample :
    rawAllAbsent.index = none ∧
    JSONParser.parseResult rawAllAbsent =
      { index := none, screenshot := none, mlInference := none,
        postProcessed := none, dbSessions := [], dbGameCounts := [],
        discrepancyFlags := DiscrepancyFlags.noFlags,
        hasDiscrepancy := false } := by
  decide

/-- C9 (amended): assembling a FrameResult never throws on any input — the
`index` field is copied through even when absent, rather than raising an
error — and every absent optional field yields its documented
absent/default state. -/
theorem c9_parseResult_total (raw : RawResult) :
    (JSONParser.parseResult raw).index = raw.index
  ∧ (raw.screenshot = none → (JSONParser.parseResult raw).screenshot = none)
  ∧ (raw.ml_inference = none →
      (JSONParser.parseResult raw).mlInference = none)
  ∧ (raw.post_processed = none →
      (JSONParser.parseResult raw).postProcessed = none)
  ∧ (raw.db_sessions = none → (JSONParser.parseResult raw).dbSessions = [])
  ∧ (raw.db_game_counts = none →
      (JSONParser.parseResult raw).dbGameCounts = [])
  ∧ (raw.discrepancy_flags = none →
      (JSONParser.parseResult raw).discrepancyFlags = DiscrepancyFlags.noFlags
      ∧ (JSONParser.parseResult raw).hasDiscrepancy = false) := by
  refine ⟨rfl, ?_, ?_, ?_, ?_, ?_, ?_⟩ <;> intro hx <;>
    simp [JSONParser.parseResult, JSONParser.parseScreenshot,
      JSONParser.parseMLInference, JSONParser.parsePostProcessed,
      JSONParser.parseDBSessions, JSONParser.parseDBGameCounts,
      JSONParser.hasAnyDiscrepancy, hx]

/-- C9 witness: the totality theorem applied to the all-absent raw result. -/
theorem c9_parseResult_total_witness :
    rawAllAbsent.screenshot = none ∧
    (JSONParser.parseResult rawAllAbsent).screenshot = none ∧
    (JSONParser.parseResult rawAllAbsent).index = none ∧
    (JSONParser.parseResult rawAllAbsent).hasDiscrepancy = false := by
  obtain ⟨q1, q2, -, -, -, -, q7⟩ := c9_parseResult_total rawAllAbsent
  exact ⟨rfl, q2 rfl, q1, (q7 rfl).2⟩

/-! ## C10: viewer invariant lemmas -/

theorem applyFilters_results (s : ViewerState) :
    (ScreenshotViewer.applyFilters s).results = s.results := rfl

theorem applyFilters_filtered_ne (s : ViewerState) (hres : s.results ≠ []) :
    (ScreenshotViewer.applyFilters s).filteredResults ≠ [] := by
  have hlen : 0 < s.results.length := List.length_pos.mpr hres
  simp only [ScreenshotViewer.applyFilters]
  cases hfr : JSONParser.filterResults s.filterCriteria s.results with
  | nil => simpa [hfr, hlen] using hres
  | cons a t => simp [hfr]

theorem applyFilters_inv (s : ViewerState) (hres : s.results ≠ [])
    (hidx : 0 ≤ s.currentIndex) :
    ViewerInv (ScreenshotViewer.applyFilters s) := by
  have hfil := applyFilters_filtered_ne s hres
  have hlen1 : 0 < ((ScreenshotViewer.applyFilters s).filteredResults.length : Int) := by
    have := List.length_pos.mpr hfil
    exact_mod_cast this
  have key : ∀ T : List FrameResult, 0 < (T.length : Int) →
      0 ≤ (if s.currentIndex ≥ (T.length : Int) then 0 else s.currentIndex) ∧
        (if s.currentIndex ≥ (T.length : Int) then 0 else s.currentIndex)
          < (T.length : Int) := by
    intro T hT
    by_cases hge : s.currentIndex ≥ (T.length : Int)
    · rw [if_pos hge]
      omega
    · rw [if_neg hge]
      omega
  refine ⟨by rw [applyFilters_results]; exact hres, hfil, ?_, ?_⟩
  · simp only [ScreenshotViewer.applyFilters] at hlen1 ⊢
    exact (key _ hlen1).1
  · simp only [ScreenshotViewer.applyFilters] at hlen1 ⊢
    exact (key _ hlen1).2

theorem applyOp_inv (s : ViewerState) (op : ScreenshotViewer.ViewerOp)
    (h : ViewerInv s) : ViewerInv (ScreenshotViewer.applyOp s op) := by
  obtain ⟨hres, hfil, hge0, hlt⟩ := h
  have hlen : 0 < s.filteredResults.length := List.length_pos.mpr hfil
  cases op with
  | updateFilter nm b =>
      exact applyFilters_inv _ hres hge0
  | clearFilters =>
      exact applyFilters_inv _ hres hge0
  | next =>
      simp only [ScreenshotViewer.applyOp, ScreenshotViewer.next]
      by_cases hc : s.currentIndex < (s.filteredResults.length : Int) - 1
      · rw [if_pos hc]
        refine ⟨hres, hfil, ?_, ?_⟩ <;> dsimp only <;> omega
      · rw [if_neg hc]
        exact ⟨hres, hfil, hge0, hlt⟩
  | previous =>
      simp only [ScreenshotViewer.applyOp, ScreenshotViewer.previous]
      by_cases hc : s.currentIndex > 0
      · rw [if_pos hc]
        refine ⟨hres, hfil, ?_, ?_⟩ <;> dsimp only <;> omega
      · rw [if_neg hc]
        exact ⟨hres, hfil, hge0, hlt⟩
  | first =>
      simp only [ScreenshotViewer.applyOp, ScreenshotViewer.first]
      refine ⟨hres, hfil, ?_, ?_⟩ <;> dsimp only <;> omega
  | last =>
      simp only [ScreenshotViewer.applyOp, ScreenshotViewer.last]
      refine ⟨hres, hfil, ?_, ?_⟩ <;> dsimp only <;> omega
  | jumpTo ix =>
      simp only [ScreenshotViewer.applyOp]
      cases hk : s.filteredResults.findIdx? (fun r => r.index == some ix) with
      | none =>
          simp only [ScreenshotViewer.jumpTo, hk]
          exact ⟨hres, hfil, hge0, hlt⟩
      | some k =>
          have hk2 := hk
          rw [List.findIdx?_eq_some_iff_getElem] at hk2
          obtain ⟨hklt, -, -⟩ := hk2
          simp only [ScreenshotViewer.jumpTo, hk]
          refine ⟨hres, hfil, ?_, ?_⟩ <;> dsimp only <;> omega

theorem runOps_inv (ops : List ScreenshotViewer.ViewerOp) (s : ViewerState)
    (h : ViewerInv s) : ViewerInv (ScreenshotViewer.runOps s ops) := by
  induction ops generalizing s with
  | nil => exact h
  | cons op ops ih => exact ih _ (applyOp_inv s op h)

theorem loadResults_inv (s0 : ViewerState) (results : List FrameResult)
    (h : results ≠ []) :
    ViewerInv (ScreenshotViewer.loadResults s0 results) := by
  have hres : ({ s0 with results := results } : ViewerState).results ≠ [] := h
  have hfil := applyFilters_filtered_ne { s0 with results := results } hres
  have hlen := List.length_pos.mpr hfil
  refine ⟨?_, hfil, le_refl 0, ?_⟩
  · rw [ScreenshotViewer.loadResults]
    show (ScreenshotViewer.applyFilters { s0 with results := results }).results ≠ []
    rw [applyFilters_results]
    exact h
  · show (0 : Int) < _
    exact_mod_cast hlen

/-! ## C10 -/

/-- C10: for any session loaded with a non-empty results sequence, after
`loadResults` and any sequence of `updateFilter`, `clearFilters`, `next`,
`previous`, `first`, `last` and `jumpTo` operations, the filtered view is
non-empty and the current position satisfies
`0 ≤ currentIndex < filteredResults.length`; moreover `applyFilters` resets
an out-of-bounds position to `0`. -/
theorem c10_viewer_invariant (s0 : ViewerState) (results : List FrameResult)
    (ops : List ScreenshotViewer.ViewerOp) (h : results ≠ []) :
    ViewerInv (ScreenshotViewer.runOps
      (ScreenshotViewer.loadResults s0 results) ops)
  ∧ ∀ s : ViewerState,
      s.currentIndex ≥
          ((ScreenshotViewer.applyFilters s).filteredResults.length : Int) →
      (ScreenshotViewer.applyFilters s).currentIndex = 0 := by
  refine ⟨runOps_inv ops _ (loadResults_inv s0 results h), ?_⟩
  intro s hs
  simp only [ScreenshotViewer.applyFilters] at hs ⊢
  rw [if_pos hs]

/-- C10 witness: the invariant holds after loading a one-element session and
running a mixed operation sequence. -/
theorem c10_viewer_invariant_witness :
    ViewerInv (ScreenshotViewer.runOps
      (ScreenshotViewer.loadResults navState [navFrame]) mixedOps) :=
  (c10_viewer_invariant navState [navFrame] mixedOps (by decide)).1
